import Mathlib

/-!
Shallow embedding of the `sia-proto` monitoring agent
(`src/agent/src/{collectors,analyzer,ipc,storage}.rs`, `src/common/src/{types,config}.rs`).

Modelling conventions:
* `serde_json::Value` is modelled by `Sia.Json`; numbers are rationals
  (Rust `f32`/`i64`/`u64` values idealized as `ℚ`; the threshold logic only
  compares them, so ordering is what matters).  The serializer is compact,
  like `serde_json::to_vec`; object key order is irrelevant to every stated
  property.  The parser models `serde_json::from_slice`: one document, then
  only trailing whitespace — anything else is an error.  Restrictions of the
  model (noted inline): `\uXXXX` string escapes and non-terminating decimal
  expansions are not modelled; no theorem below evaluates those paths.
* Fallible external collaborators (the chrono RFC-3339 parser, the sqlx
  insert, the Ollama HTTP call) are passed in as function parameters, so a
  theorem can quantify over every behaviour of the collaborator.
* The `u32` counter `high_cpu_count` is modelled as `Nat` (overflow after
  2^32 consecutive in-band ticks is not modelled).
-/

namespace Sia

/-- Model of `serde_json::Value`. -/
inductive Json where
  | null : Json
  | bool (b : Bool) : Json
  | num (q : ℚ) : Json
  | str (s : String) : Json
  | arr (elems : List Json) : Json
  | obj (fields : List (String × Json)) : Json

/-- Hex digit for control-character escapes (lowercase, as serde emits). -/
def hexDigit (n : Nat) : Char :=
  if n < 10 then Char.ofNat (48 + n) else Char.ofNat (87 + n)

/-- How `serde_json` escapes one character inside a JSON string. -/
def escapeChar (c : Char) : String :=
  if c = '"' then "\\\""
  else if c = '\\' then "\\\\"
  else if c = '\x08' then "\\b"
  else if c = '\x0c' then "\\f"
  else if c = '\n' then "\\n"
  else if c = '\r' then "\\r"
  else if c = '\t' then "\\t"
  else if c.toNat < 32 then
    "\\u00" ++ (hexDigit (c.toNat / 16)).toString ++ (hexDigit (c.toNat % 16)).toString
  else c.toString

def escapeStr (s : String) : String :=
  String.join (s.toList.map escapeChar)

/-- Decimal digits of the fractional part `rem / den`, for denominators with a
terminating decimal expansion (every binary float terminates).  Fuel-bounded;
truncates at `fuel` digits otherwise (never evaluated by any theorem). -/
def fracDigits : Nat → Nat → Nat → String
  | 0, _, _ => ""
  | _, 0, _ => ""
  | fuel + 1, rem, den =>
    let r := rem * 10
    (Char.ofNat (48 + r / den)).toString ++ fracDigits fuel (r % den) den

/-- Compact rendering of a JSON number (exact on integers, which is all any
theorem below evaluates). -/
def serNum (q : ℚ) : String :=
  if q.den = 1 then toString q.num
  else
    (if q < 0 then "-" else "") ++
      toString (q.num.natAbs / q.den) ++ "." ++
      fracDigits 1100 (q.num.natAbs % q.den) q.den

mutual

/-- Model of compact `serde_json::to_vec` serialization (as a `String`;
the Rust `Vec<u8>` is its UTF-8 bytes). -/
def serJson : Json → String
  | .null => "null"
  | .bool true => "true"
  | .bool false => "false"
  | .num q => serNum q
  | .str s => "\"" ++ escapeStr s ++ "\""
  | .arr es => "[" ++ serList es ++ "]"
  | .obj fs => "\x7b" ++ serFields fs ++ "\x7d"

def serList : List Json → String
  | [] => ""
  | [e] => serJson e
  | e :: e2 :: es => serJson e ++ "," ++ serList (e2 :: es)

def serFields : List (String × Json) → String
  | [] => ""
  | [(k, v)] => "\"" ++ escapeStr k ++ "\":" ++ serJson v
  | (k, v) :: f2 :: fs =>
    "\"" ++ escapeStr k ++ "\":" ++ serJson v ++ "," ++ serFields (f2 :: fs)

end

def isWs (c : Char) : Bool :=
  c = ' ' || c = '\t' || c = '\n' || c = '\r'

def skipWs : List Char → List Char
  | [] => []
  | c :: cs => if isWs c then skipWs cs else c :: cs

/-- Parse the remainder of a JSON string literal (after the opening quote),
returning the decoded string and the input after the closing quote.
`\uXXXX` escapes are not modelled (the serializer never emits them for the
inputs any theorem evaluates). -/
def parseStringRest : List Char → Option (String × List Char)
  | [] => none
  | '"' :: rest => some ("", rest)
  | '\\' :: c :: rest =>
    let esc : Option String :=
      if c = '"' then some "\""
      else if c = '\\' then some "\\"
      else if c = '/' then some "/"
      else if c = 'n' then some "\n"
      else if c = 't' then some "\t"
      else if c = 'r' then some "\r"
      else if c = 'b' then some "\x08"
      else if c = 'f' then some "\x0c"
      else none
    match esc with
    | some e => (parseStringRest rest).map fun p => (e ++ p.1, p.2)
    | none => none
  | c :: rest => (parseStringRest rest).map fun p => (c.toString ++ p.1, p.2)

def digitsVal (ds : List Char) : Nat :=
  ds.foldl (fun a c => a * 10 + (c.toNat - 48)) 0

/-- Parse one or more decimal digits. -/
def parseDigits (cs : List Char) : Option (Nat × List Char) :=
  let ds := cs.takeWhile Char.isDigit
  if ds = [] then none else some (digitsVal ds, cs.drop ds.length)

/-- Parse the digits of a number; fractional/exponent forms are outside the
model (the model covers the integer numerals the snapshot claims evaluate). -/
def parseNumAfterDigits (n : Nat) (neg : Bool) (rest : List Char) :
    Option (Json × List Char) :=
  match rest with
  | '.' :: _ => none
  | 'e' :: _ => none
  | 'E' :: _ => none
  | _ => some (.num (if neg then -(n : ℚ) else (n : ℚ)), rest)

mutual

/-- Model of serde_json's value parser (fuel-bounded recursion; the fuel
passed by `from_slice` is ample for every input a theorem evaluates). -/
def parseVal : Nat → List Char → Option (Json × List Char)
  | 0, _ => none
  | fuel + 1, cs =>
    match skipWs cs with
    | [] => none
    | 'n' :: 'u' :: 'l' :: 'l' :: rest => some (.null, rest)
    | 't' :: 'r' :: 'u' :: 'e' :: rest => some (.bool true, rest)
    | 'f' :: 'a' :: 'l' :: 's' :: 'e' :: rest => some (.bool false, rest)
    | '"' :: rest => (parseStringRest rest).map fun p => (.str p.1, p.2)
    | '[' :: rest =>
      (match skipWs rest with
       | ']' :: r => some (.arr [], r)
       | cs2 => (parseArrItems fuel cs2).map fun p => (.arr p.1, p.2))
    | '\x7b' :: rest =>
      (match skipWs rest with
       | '\x7d' :: r => some (.obj [], r)
       | cs2 => (parseObjItems fuel cs2).map fun p => (.obj p.1, p.2))
    | '-' :: rest =>
      match parseDigits rest with
      | some (n, r) => parseNumAfterDigits n true r
      | none => none
    | c :: rest =>
      if c.isDigit then
        match parseDigits (c :: rest) with
        | some (n, r) => parseNumAfterDigits n false r
        | none => none
      else none

def parseArrItems : Nat → List Char → Option (List Json × List Char)
  | 0, _ => none
  | fuel + 1, cs =>
    match parseVal fuel cs with
    | none => none
    | some (v, rest) =>
      match skipWs rest with
      | ',' :: r => (parseArrItems fuel (skipWs r)).map fun p => (v :: p.1, p.2)
      | ']' :: r => some ([v], r)
      | _ => none

def parseObjItems : Nat → List Char → Option (List (String × Json) × List Char)
  | 0, _ => none
  | fuel + 1, cs =>
    match cs with
    | '"' :: rest =>
      (match parseStringRest rest with
       | none => none
       | some (k, r1) =>
         match skipWs r1 with
         | ':' :: r2 =>
           (match parseVal fuel r2 with
            | none => none
            | some (v, r3) =>
              match skipWs r3 with
              | ',' :: r4 =>
                (parseObjItems fuel (skipWs r4)).map fun p => ((k, v) :: p.1, p.2)
              | '\x7d' :: r4 => some ([(k, v)], r4)
              | _ => none)
         | _ => none)
    | _ => none

end

/-- Model of `serde_json::from_slice` / `from_str`: parse exactly one
document, then require only trailing whitespace. -/
def from_slice (s : String) : Option Json :=
  let cs := s.toList
  match parseVal (cs.length + 1) cs with
  | some (v, rest) => if skipWs rest = [] then some v else none
  | none => none

/-- Model of `Value::get(key)` on an object (`None` on non-objects). -/
def Json.getField : Json → String → Option Json
  | .obj fs, k => (fs.find? fun p => p.1 = k).map Prod.snd
  | _, _ => none

/-- Model of `Value::is_object`. -/
def Json.isObj : Json → Bool
  | .obj _ => true
  | _ => false

/-! ## Data model (`src/common/src/types.rs`, `src/agent/src/storage.rs`,
`src/common/src/config.rs`, `src/agent/src/ipc.rs`) -/

/-- Model of `common::Event` (`types.rs`).  Rust field `r#type` is `type_` here. -/
structure Event where
  event_id : String
  ts : String
  severity : String
  type_ : String
  entity : Json
  evidence : Json
  suggestion : Option Json
  status : String

/-- Model of `storage::StoredEvent` (`storage.rs`); `snapshot: Vec<u8>` is modelled as
the UTF-8 string it holds. -/
structure StoredEvent where
  event_id : String
  ts : Int
  severity : String
  type_ : String
  service_id : String
  snapshot : String
  status : String

/-- Model of `common::ThresholdsConfig` (`config.rs`); `f32` thresholds as `ℚ`,
`u32` sustained count as `Nat`. -/
structure ThresholdsConfig where
  cpu_warning : ℚ
  cpu_critical : ℚ
  memory_warning : ℚ
  memory_critical : ℚ
  cpu_sustained_count : Nat

/-- Model of `default_thresholds()` (`config.rs`). -/
def default_thresholds : ThresholdsConfig :=
  { cpu_warning := 80
    cpu_critical := 95
    memory_warning := 85
    memory_critical := 95
    cpu_sustained_count := 2 }

/-- Model of `ipc::SystemMetrics`. -/
structure SystemMetrics where
  cpu_usage : ℚ
  memory_used_mb : Nat
  memory_total_mb : Nat
  memory_percent : ℚ

/-- Model of `ipc::IpcResponse`. -/
structure IpcResponse where
  success : Bool
  data : Json

/-- The `error` string of a failure response's data, if any. -/
def IpcResponse.errorMsg (r : IpcResponse) : Option Json :=
  r.data.getField "error"

/-! ## Storage model (`src/agent/src/storage.rs`)

The SQLite table is modelled as the list of its rows in insertion order.
Read queries are assumed not to fail (the sqlx read error branches of the
handlers are therefore not modelled; every claim below concerns the `Ok`
paths). -/

/-- Model of `Storage::insert_event`: the SQL hardcodes `status = 'open'` and stores
exactly the six bound values. -/
def insert_event (store : List StoredEvent) (id : String) (ts : Int)
    (severity ty service : String) (snapshot : String) : List StoredEvent :=
  store ++ [{ event_id := id, ts := ts, severity := severity, type_ := ty,
              service_id := service, snapshot := snapshot, status := "open" }]

/-- Model of `Storage::get_event_by_id`: `WHERE event_id = ?` (ids are unique in
practice; `find?` returns the first match, which is the only one). -/
def get_event_by_id (store : List StoredEvent) (id : String) :
    Option StoredEvent :=
  store.find? fun r => r.event_id = id

/-- Model of `Storage::get_event_counts`: rows with `status = 'open'`, counted per
severity (`CRITICAL`, `WARNING`, `INFO`). -/
def get_event_counts (store : List StoredEvent) : Nat × Nat × Nat :=
  ((store.filter fun r => r.severity = "CRITICAL" ∧ r.status = "open").length,
   (store.filter fun r => r.severity = "WARNING" ∧ r.status = "open").length,
   (store.filter fun r => r.severity = "INFO" ∧ r.status = "open").length)

/-! ## Collectors (`src/agent/src/collectors.rs`)

The per-tick threshold logic of the two spawned loops (lines 43-57 and
92-100), as pure step functions.  A tick's emission is `some (severity,
threshold-argument)` for the `create_*_event` call it makes, `none` when no
event is produced.  The CPU collector's mutable `high_cpu_count` is the
explicit counter state. -/

/-- One CPU-collector tick (lines 43-57): returns the emission and the new
`high_cpu_count`. -/
def cpuTick (th : ThresholdsConfig) (high_cpu_count : Nat) (cpu_usage : ℚ) :
    Option (String × ℚ) × Nat :=
  if cpu_usage > th.cpu_critical then
    (some ("CRITICAL", th.cpu_critical), 0)
  else if cpu_usage > th.cpu_warning then
    let c := high_cpu_count + 1
    (if c ≥ th.cpu_sustained_count then some ("WARNING", th.cpu_warning)
     else none, c)
  else
    (none, 0)

/-- One memory-collector tick (lines 92-100): no counter state exists. -/
def memTick (th : ThresholdsConfig) (mem_percent : ℚ) :
    Option (String × ℚ) :=
  if mem_percent > th.memory_critical then
    some ("CRITICAL", th.memory_critical)
  else if mem_percent > th.memory_warning then
    some ("WARNING", th.memory_warning)
  else
    none

/-- The CPU counter after a sequence of ticks starting from `c`. -/
def cpuCountFrom (th : ThresholdsConfig) (c : Nat) (vs : List ℚ) : Nat :=
  vs.foldl (fun a v => (cpuTick th a v).2) c

/-- The emissions of a run of the CPU collector from counter `c`. -/
def cpuRun (th : ThresholdsConfig) (c : Nat) :
    List ℚ → List (Option (String × ℚ))
  | [] => []
  | v :: vs => (cpuTick th c v).1 :: cpuRun th (cpuTick th c v).2 vs

/-- The emissions of a run of the memory collector. -/
def memRun (th : ThresholdsConfig) (vs : List ℚ) :
    List (Option (String × ℚ)) :=
  vs.map (memTick th)

/-- The warning band `(cpu_warning, cpu_critical]` of the CPU collector's
middle branch. -/
def cpuWarnBand (th : ThresholdsConfig) (v : ℚ) : Bool :=
  decide (th.cpu_warning < v) && decide (v ≤ th.cpu_critical)

/-- The warning band `(memory_warning, memory_critical]` of the memory
collector's middle branch. -/
def memWarnBand (th : ThresholdsConfig) (v : ℚ) : Bool :=
  decide (th.memory_warning < v) && decide (v ≤ th.memory_critical)

/-- Length of the maximal warning-band suffix of a sample history. -/
def trailWarn (th : ThresholdsConfig) (vs : List ℚ) : Nat :=
  (vs.reverse.takeWhile (cpuWarnBand th)).length

/-- Model of `create_cpu_event` (`collectors.rs` lines 109-147).  The ambient data the
Rust code reads itself (clock-derived `event_id`/`ts`, the top process from
`sysinfo`) are parameters. -/
def create_cpu_event (cpu_usage : ℚ) (severity : String) (top_process : Json)
    (threshold : ℚ) (event_id ts : String) : Event :=
  { event_id := event_id
    ts := ts
    severity := severity
    type_ := "cpu_high"
    entity := Json.obj
      [("cpu_usage", Json.num cpu_usage),
       ("type", Json.str "system_cpu"),
       ("top_process", top_process)]
    evidence := Json.obj
      [("threshold", Json.num threshold),
       ("sustained", Json.bool (severity = "WARNING")),
       ("timestamp", Json.str ts)]
    suggestion := none
    status := "open" }

/-- Model of `create_memory_event` (`collectors.rs` lines 149-188), with the
clock/process-table inputs as parameters. -/
def create_memory_event (mem_percent : ℚ) (used total : Nat)
    (severity : String) (top_processes : List Json) (threshold : ℚ)
    (event_id ts : String) : Event :=
  { event_id := event_id
    ts := ts
    severity := severity
    type_ := "memory_high"
    entity := Json.obj
      [("memory_percent", Json.num mem_percent),
       ("used_mb", Json.num (used / 1024 / 1024 : Nat)),
       ("total_mb", Json.num (total / 1024 / 1024 : Nat)),
       ("type", Json.str "system_memory"),
       ("top_processes", Json.arr top_processes)]
    evidence := Json.obj
      [("threshold", Json.num threshold),
       ("timestamp", Json.str ts)]
    suggestion := none
    status := "open" }

/-- The event a CPU tick emits (the collector calls `create_cpu_event` with
the tick's severity and branch threshold). -/
def cpuTickEvent (th : ThresholdsConfig) (c : Nat) (v : ℚ)
    (top_process : Json) (event_id ts : String) : Option Event :=
  (cpuTick th c v).1.map fun st =>
    create_cpu_event v st.1 top_process st.2 event_id ts

/-- The event a memory tick emits. -/
def memTickEvent (th : ThresholdsConfig) (v : ℚ) (used total : Nat)
    (top_processes : List Json) (event_id ts : String) : Option Event :=
  (memTick th v).map fun st =>
    create_memory_event v used total st.1 top_processes st.2 event_id ts

/-! ## Analyzer (`src/agent/src/analyzer.rs`)

The LLM collaborator (`LlmClient::analyze_event`, a network call) is a
parameter of type `Event → Except String Json`: `.ok` is a suggestion,
`.error` an enrichment failure.  Likewise the chrono RFC-3339 parse used by
`store_event` is a parameter `tsParse : String → Option Int`, and the sqlx
insert's success is a parameter `insertOk : StoredEvent → Bool`. -/

/-- The snapshot bytes `store_event` builds (lines 51-60): serialized entity,
then serialized evidence, then the serialized suggestion if present —
byte-concatenated, not one JSON document. -/
def buildSnapshot (ev : Event) : String :=
  let entity_json := serJson ev.entity
  let evidence_json := serJson ev.evidence
  let base := entity_json ++ evidence_json
  match ev.suggestion with
  | some s => base ++ serJson s
  | none => base

/-- Model of `analyzer::store_event` (lines 47-72): parse the event's RFC-3339
timestamp (failure aborts the store), build the snapshot, and insert with
`service_id = "system"`.  Returns the row the insert binds. -/
def store_event (tsParse : String → Option Int) (ev : Event) :
    Option StoredEvent :=
  (tsParse ev.ts).map fun ts =>
    { event_id := ev.event_id
      ts := ts
      severity := ev.severity
      type_ := ev.type_
      service_id := "system"
      snapshot := buildSnapshot ev
      status := "open" }

/-- The enrichment phase of one analyzer iteration (lines 19-31): returns the
(possibly enriched) event and whether the LLM collaborator was invoked. -/
def analyzerStep (llm : Option (Event → Except String Json)) (ev : Event) :
    Event × Bool :=
  if ev.severity = "CRITICAL" ∧ llm.isSome then
    match llm with
    | some client =>
      match client ev with
      | .ok suggestion => ({ ev with suggestion := some suggestion }, true)
      | .error _ => (ev, true)
    | none => (ev, false)
  else (ev, false)

/-- One full analyzer iteration: enrichment, then the persistence attempt
(lines 33-38); a failed `store_event` or insert is logged and swallowed.
Returns the processed event, whether enrichment was attempted, and the row
stored (if the write succeeded). -/
def analyzerIter (llm : Option (Event → Except String Json))
    (tsParse : String → Option Int) (insertOk : StoredEvent → Bool)
    (ev : Event) : Event × Bool × Option StoredEvent :=
  let step := analyzerStep llm ev
  let stored : Option StoredEvent :=
    match store_event tsParse step.1 with
    | some row => if insertOk row then some row else none
    | none => none
  (step.1, step.2, stored)

/-- The analyzer loop (lines 14-42) over the whole sequence of events the
channel delivers before closing: one iteration per received event, every
failure non-fatal, the loop ending exactly when the list is exhausted. -/
def analyzerRun (llm : Option (Event → Except String Json))
    (tsParse : String → Option Int) (insertOk : StoredEvent → Bool) :
    List Event → List (Event × Bool × Option StoredEvent)
  | [] => []
  | ev :: rest =>
    analyzerIter llm tsParse insertOk ev :: analyzerRun llm tsParse insertOk rest

/-! ## IPC handlers (`src/agent/src/ipc.rs`)

The LLM client handle is `Option LlmClient` as in the source; its
network-bound methods are parameters: `probe` models what
`test_connection` would return if called, `analyze` models
`analyze_event`.  The availability cache `LLM_CONNECTION_CACHE` is
`Option Bool` (`none` = the `OnceLock` was never initialized). -/

/-- The data of an `LlmClient` handle, together with its two network-bound
methods as oracles. -/
structure LlmClient where
  model : String
  base_url : String
  probe : Bool
  analyze : Event → Except String Json

/-- Model of `handle_show` (`ipc.rs` lines 244-277), `Ok` paths: look the id up; on a
hit, best-effort-parse the snapshot (empty object on failure) and answer
with the full record; on a miss, a structured not-found failure. -/
def handle_show (store : List StoredEvent) (event_id : String) : IpcResponse :=
  match get_event_by_id store event_id with
  | some event =>
    let snapshot := (from_slice event.snapshot).getD (Json.obj [])
    { success := true
      data := Json.obj
        [("event_id", Json.str event.event_id),
         ("ts", Json.num event.ts),
         ("severity", Json.str event.severity),
         ("type", Json.str event.type_),
         ("service_id", Json.str event.service_id),
         ("status", Json.str event.status),
         ("snapshot", snapshot)] }
  | none =>
    { success := false
      data := Json.obj
        [("error", Json.str ("Event " ++ event_id ++ " not found"))] }

/-- The fixed error `handle_analyze` answers when no LLM client is
configured (`ipc.rs` line 305). -/
def llmNotAvailableMsg : String :=
  "LLM client not available. Make sure Ollama is running and configured."

/-- Model of `handle_analyze` (`ipc.rs` lines 279-367), `Ok` paths.  Note the order:
the event lookup comes first; only then is the LLM client checked.  `cache`
is the availability cache visible in scope; the source never reads it
here. -/
def handle_analyze (store : List StoredEvent) (event_id : String)
    (llm_client : Option LlmClient) (cache : Option Bool) : IpcResponse :=
  match get_event_by_id store event_id with
  | none =>
    { success := false
      data := Json.obj
        [("error", Json.str ("Event " ++ event_id ++ " not found"))] }
  | some event =>
    match llm_client with
    | none =>
      { success := false
        data := Json.obj [("error", Json.str llmNotAvailableMsg)] }
    | some client =>
      let snapshot := (from_slice event.snapshot).getD (Json.obj [])
      let entity :=
        match snapshot.getField "entity" with
        | some e => e
        | none =>
          if snapshot.isObj &&
             ((snapshot.getField "cpu_usage").isSome ||
              (snapshot.getField "memory_percent").isSome ||
              (snapshot.getField "type").isSome) then
            snapshot
          else Json.obj []
      let evidence :=
        match snapshot.getField "evidence" with
        | some e => e
        | none =>
          Json.obj
            [("timestamp", Json.num event.ts),
             ("threshold", Json.str "unknown")]
      let event_for_llm : Event :=
        { event_id := event.event_id
          ts := toString event.ts
          severity := event.severity
          type_ := event.type_
          entity := entity
          evidence := evidence
          suggestion := none
          status := event.status }
      match client.analyze event_for_llm with
      | .ok suggestion =>
        { success := true
          data := Json.obj
            [("event_id", Json.str event.event_id),
             ("suggestion", suggestion)] }
      | .error e =>
        { success := false
          data := Json.obj
            [("error", Json.str ("LLM analysis failed: " ++ e))] }

/-- Model of `handle_status` (`ipc.rs` lines 156-215), `Ok` paths.  `uptime` stands
for the clock difference the source computes; `cache` is
`LLM_CONNECTION_CACHE.get()`.  The client's `probe` oracle is in scope but —
as in the source — never consulted here: availability comes from the cache
alone, defaulting to `false`. -/
def handle_status (uptime : Nat) (store : List StoredEvent)
    (metrics : SystemMetrics) (llm_client : Option LlmClient)
    (cache : Option Bool) (th : ThresholdsConfig) : IpcResponse :=
  let counts := get_event_counts store
  let llm_info : Json :=
    match llm_client with
    | some client =>
      let connected := cache.getD false
      Json.obj
        [("available", Json.bool connected),
         ("model", Json.str client.model),
         ("url", Json.str client.base_url)]
    | none =>
      Json.obj
        [("available", Json.bool false),
         ("model", Json.null),
         ("url", Json.null)]
  { success := true
    data := Json.obj
      [("status", Json.str "running"),
       ("uptime_seconds", Json.num uptime),
       ("collectors", Json.obj
         [("cpu", Json.str "active"), ("memory", Json.str "active")]),
       ("metrics", Json.obj
         [("cpu_usage", Json.num metrics.cpu_usage),
          ("memory_used_mb", Json.num metrics.memory_used_mb),
          ("memory_total_mb", Json.num metrics.memory_total_mb),
          ("memory_percent", Json.num metrics.memory_percent)]),
       ("events", Json.obj
         [("critical", Json.num counts.1),
          ("warning", Json.num counts.2.1),
          ("info", Json.num counts.2.2)]),
       ("llm", llm_info),
       ("thresholds", Json.obj
         [("cpu_warning", Json.num th.cpu_warning),
          ("cpu_critical", Json.num th.cpu_critical),
          ("memory_warning", Json.num th.memory_warning),
          ("memory_critical", Json.num th.memory_critical),
          ("cpu_sustained_count", Json.num th.cpu_sustained_count)])] }

/-- The `llm.available` value a status response reports. -/
def llmAvailable (r : IpcResponse) : Option Json :=
  (r.data.getField "llm").bind fun j => j.getField "available"

/-! ## Theorems -/

/-- The CPU counter update in isolation: it increments exactly on
warning-band samples and resets to 0 otherwise. -/
theorem cpuTick_counter_eq (th : ThresholdsConfig) (c : Nat) (v : ℚ) :
    (cpuTick th c v).2 = if cpuWarnBand th v = true then c + 1 else 0 := by
  by_cases h1 : v > th.cpu_critical
  · have hn : ¬ v ≤ th.cpu_critical := not_le.mpr h1
    simp [cpuTick, cpuWarnBand, h1, hn]
  · by_cases h2 : v > th.cpu_warning
    · have hc : v ≤ th.cpu_critical := not_lt.mp h1
      simp [cpuTick, cpuWarnBand, h1, h2, hc]
    · simp [cpuTick, cpuWarnBand, h1, h2]

/-- Appending one sample to a history updates the trailing warning-band run
as expected. -/
theorem trailWarn_append (th : ThresholdsConfig) (vs : List ℚ) (v : ℚ) :
    trailWarn th (vs ++ [v]) =
      if cpuWarnBand th v = true then trailWarn th vs + 1 else 0 := by
  unfold trailWarn
  simp [List.takeWhile_cons]
  split_ifs with h <;> simp [h]

theorem cpuCountFrom_append (th : ThresholdsConfig) (c : Nat) (vs : List ℚ)
    (v : ℚ) :
    cpuCountFrom th c (vs ++ [v]) = (cpuTick th (cpuCountFrom th c vs) v).2 := by
  simp [cpuCountFrom, List.foldl_append]

/-- The CPU collector's counter equals the length of the trailing
warning-band run of the history. -/
theorem cpuCountFrom_eq_trailWarn (th : ThresholdsConfig) (vs : List ℚ) :
    cpuCountFrom th 0 vs = trailWarn th vs := by
  induction vs using List.reverseRecOn with
  | nil => rfl
  | append_singleton vs v ih =>
    rw [cpuCountFrom_append, cpuTick_counter_eq, trailWarn_append, ih]

/-- A run splits around its last sample. -/
theorem cpuRun_append (th : ThresholdsConfig) (c : Nat) (vs : List ℚ)
    (v : ℚ) :
    cpuRun th c (vs ++ [v]) =
      cpuRun th c vs ++ [(cpuTick th (cpuCountFrom th c vs) v).1] := by
  induction vs generalizing c with
  | nil => simp [cpuRun, cpuCountFrom]
  | cons w ws ih => simp [cpuRun, ih, cpuCountFrom]

/-- C5: on every tick whose value exceeds the critical threshold, the sampler
emits exactly one event, of severity CRITICAL, with the critical threshold as
evidence argument, and the CPU collector's consecutive-warning counter is 0
immediately after that tick (the memory collector keeps no counter). -/
theorem C5_critical_fires_immediately (th : ThresholdsConfig) (c : Nat)
    (v w : ℚ) (hv : th.cpu_critical < v) (hw : th.memory_critical < w) :
    cpuTick th c v = (some ("CRITICAL", th.cpu_critical), 0) ∧
    memTick th w = some ("CRITICAL", th.memory_critical) := by
  constructor
  · simp [cpuTick, hv]
  · simp [memTick, hw]

/-- Witness for C5 at the default thresholds: CPU 97% and memory 96% against
critical = 95. -/
theorem C5_witness :
    cpuTick default_thresholds 3 97 =
      (some ("CRITICAL", default_thresholds.cpu_critical), 0) ∧
    memTick default_thresholds 96 =
      some ("CRITICAL", default_thresholds.memory_critical) :=
  C5_critical_fires_immediately default_thresholds 3 97 96
    (by norm_num [default_thresholds]) (by norm_num [default_thresholds])

/-- C4: the CPU collector's counter increments on every warning-band tick;
once `counter + 1 ≥ sustained_count` the tick emits a WARNING (and the counter
keeps incrementing rather than resetting), strictly below the threshold
nothing is emitted, and any below-warning sample puts the counter back at
0. -/
theorem C4_cpu_counter_behaviour (th : ThresholdsConfig) (c : Nat) (v : ℚ) :
    (cpuWarnBand th v = true → (cpuTick th c v).2 = c + 1) ∧
    (cpuWarnBand th v = true → th.cpu_sustained_count ≤ c + 1 →
      (cpuTick th c v).1 = some ("WARNING", th.cpu_warning)) ∧
    (cpuWarnBand th v = true → c + 1 < th.cpu_sustained_count →
      (cpuTick th c v).1 = none) ∧
    (v ≤ th.cpu_warning → (cpuTick th c v).2 = 0) := by
  refine ⟨fun hb => ?_, fun hb hs => ?_, fun hb hs => ?_, fun hlow => ?_⟩
  · rw [cpuTick_counter_eq, if_pos hb]
  · have h1 : ¬ v > th.cpu_critical := by
      have := (Bool.and_eq_true _ _).mp hb
      exact not_lt.mpr (of_decide_eq_true this.2)
    have h2 : v > th.cpu_warning := by
      have := (Bool.and_eq_true _ _).mp hb
      exact of_decide_eq_true this.1
    simp [cpuTick, h1, h2, hs]
  · have h1 : ¬ v > th.cpu_critical := by
      have := (Bool.and_eq_true _ _).mp hb
      exact not_lt.mpr (of_decide_eq_true this.2)
    have h2 : v > th.cpu_warning := by
      have := (Bool.and_eq_true _ _).mp hb
      exact of_decide_eq_true this.1
    simp [cpuTick, h1, h2, Nat.not_le.mpr hs]
  · rw [cpuTick_counter_eq, if_neg]
    simp [cpuWarnBand]
    intro hw
    exact absurd hlow (not_le.mpr hw)

/-- Witness for C4 at the default thresholds (warning 80, critical 95,
sustained 2), sample 85%: counter 0→1 with no emission, counter 1→2 with a
WARNING, and a 50% sample resetting a counter of 3. -/
theorem C4_witness :
    (cpuTick default_thresholds 0 85).2 = 0 + 1 ∧
    (cpuTick default_thresholds 1 85).1 =
      some ("WARNING", default_thresholds.cpu_warning) ∧
    (cpuTick default_thresholds 0 85).1 = none ∧
    (cpuTick default_thresholds 3 50).2 = 0 :=
  ⟨(C4_cpu_counter_behaviour default_thresholds 0 85).1 (by decide),
   (C4_cpu_counter_behaviour default_thresholds 1 85).2.1 (by decide)
     (by decide),
   (C4_cpu_counter_behaviour default_thresholds 0 85).2.2.1 (by decide)
     (by decide),
   (C4_cpu_counter_behaviour default_thresholds 3 50).2.2.2 (by decide)⟩

/-- C9: `show` on an event id the store does not contain answers with a
structured response: `success = false` and a non-empty error string (the
handler is a total function — no panic path exists). -/
theorem C9_show_unknown_id (store : List StoredEvent) (id : String)
    (h : get_event_by_id store id = none) :
    (handle_show store id).success = false ∧
    (handle_show store id).errorMsg =
      some (Json.str ("Event " ++ id ++ " not found")) ∧
    ("Event " ++ id ++ " not found") ≠ "" := by
  refine ⟨?_, ?_, ?_⟩
  · simp [handle_show, h]
  · simp [handle_show, h, IpcResponse.errorMsg, Json.getField]
  · intro hc
    have := congrArg String.length hc
    simp [String.length_append] at this
    exact absurd this.2 (by decide)

/-- Witness for C9: the empty store and the id `"nope"`. -/
theorem C9_witness :
    (handle_show [] "nope").success = false ∧
    (handle_show [] "nope").errorMsg =
      some (Json.str ("Event " ++ "nope" ++ " not found")) ∧
    ("Event " ++ "nope" ++ " not found") ≠ "" :=
  C9_show_unknown_id [] "nope" rfl

/-- C2 (counterexample): with the default thresholds (`sustained_count = 2`),
a single warning-band memory sample (90% against warning 85, critical 95)
already emits a WARNING on the very first sample — the memory collector has
no sustained-count gating, so the claim fails for the memory sampler. -/
theorem C2_counterexample :
    memRun default_thresholds [90] =
      [some ("WARNING", default_thresholds.memory_warning)] ∧
    default_thresholds.cpu_sustained_count = 2 := by
  constructor
  · norm_num [memRun, memTick, default_thresholds]
  · rfl

/-- C2 (amended): the sustained-count gating holds for the CPU sampler —
after any history `vs`, the next sample `v` emits a WARNING iff `v` is in the
warning band and the trailing warning-band run (`v` included) has reached
`sustained_count`; so a WARNING is first emitted at the `sustained_count`-th
consecutive warning-band sample and on every in-band sample after, never
earlier.  The memory sampler instead emits a WARNING immediately on every
warning-band sample.  (The first conjunct ties the tick after history `vs`
to the emission sequence of a run.) -/
theorem C2_amended_sustained_warning (th : ThresholdsConfig) (vs : List ℚ)
    (v : ℚ) :
    cpuRun th 0 (vs ++ [v]) =
      cpuRun th 0 vs ++ [(cpuTick th (cpuCountFrom th 0 vs) v).1] ∧
    ((cpuTick th (cpuCountFrom th 0 vs) v).1 =
        some ("WARNING", th.cpu_warning) ↔
      cpuWarnBand th v = true ∧
        th.cpu_sustained_count ≤ trailWarn th vs + 1) ∧
    (memTick th v = some ("WARNING", th.memory_warning) ↔
      memWarnBand th v = true) := by
  refine ⟨cpuRun_append th 0 vs v, ?_, ?_⟩
  · rw [cpuCountFrom_eq_trailWarn]
    constructor
    · intro hemit
      by_cases h1 : v > th.cpu_critical
      · simp [cpuTick, h1] at hemit
      · by_cases h2 : v > th.cpu_warning
        · refine ⟨by simp [cpuWarnBand, h2, not_lt.mp h1], ?_⟩
          by_contra hs
          simp [cpuTick, h1, h2, Nat.not_le.mp hs] at hemit
        · simp [cpuTick, h1, h2] at hemit
    · rintro ⟨hb, hs⟩
      have h1 : ¬ v > th.cpu_critical := by
        have := (Bool.and_eq_true _ _).mp hb
        exact not_lt.mpr (of_decide_eq_true this.2)
      have h2 : v > th.cpu_warning := by
        have := (Bool.and_eq_true _ _).mp hb
        exact of_decide_eq_true this.1
      simp [cpuTick, h1, h2, hs]
  · constructor
    · intro hemit
      by_cases h1 : v > th.memory_critical
      · simp [memTick, h1] at hemit
      · by_cases h2 : v > th.memory_warning
        · simp [memWarnBand, h2, not_lt.mp h1]
        · simp [memTick, h1, h2] at hemit
    · intro hb
      have h1 : ¬ v > th.memory_critical := by
        have := (Bool.and_eq_true _ _).mp hb
        exact not_lt.mpr (of_decide_eq_true this.2)
      have h2 : v > th.memory_warning := by
        have := (Bool.and_eq_true _ _).mp hb
        exact of_decide_eq_true this.1
      simp [memTick, h1, h2]

/-- Helper: the severity a CPU tick can emit is CRITICAL or WARNING, and the
event it builds is open with no suggestion. -/
theorem cpuTick_emits_crit_or_warn (th : ThresholdsConfig) (c : Nat) (v : ℚ)
    (s : String) (t : ℚ) (h : (cpuTick th c v).1 = some (s, t)) :
    s = "CRITICAL" ∨ s = "WARNING" := by
  unfold cpuTick at h
  split_ifs at h with h1 h2
  · exact Or.inl (by injection h with h; injection h with h; exact h.symm)
  · simp only at h
    split_ifs at h with h3
    · exact Or.inr (by injection h with h; injection h with h; exact h.symm)

theorem memTick_emits_crit_or_warn (th : ThresholdsConfig) (v : ℚ)
    (s : String) (t : ℚ) (h : memTick th v = some (s, t)) :
    s = "CRITICAL" ∨ s = "WARNING" := by
  unfold memTick at h
  split_ifs at h with h1 h2
  · exact Or.inl (by injection h with h; injection h with h; exact h.symm)
  · exact Or.inr (by injection h with h; injection h with h; exact h.symm)

/-- C10: every event either sampler emits has severity CRITICAL or WARNING
(never INFO), status `"open"`, and no suggestion; and inserting any row whose
severity is not INFO leaves the open-INFO count reported by `status`
unchanged. -/
theorem C10_sampler_events_never_info (th : ThresholdsConfig) (c : Nat)
    (v : ℚ) (tp : Json) (tps : List Json) (used total : Nat)
    (eid tstamp : String) (store : List StoredEvent) (id : String) (tsv : Int)
    (sev ty srv snap : String) :
    (∀ e ∈ cpuTickEvent th c v tp eid tstamp,
      (e.severity = "CRITICAL" ∨ e.severity = "WARNING") ∧
        e.status = "open" ∧ e.suggestion = none) ∧
    (∀ e ∈ memTickEvent th v used total tps eid tstamp,
      (e.severity = "CRITICAL" ∨ e.severity = "WARNING") ∧
        e.status = "open" ∧ e.suggestion = none) ∧
    (sev ≠ "INFO" →
      (get_event_counts (insert_event store id tsv sev ty srv snap)).2.2 =
        (get_event_counts store).2.2) := by
  refine ⟨?_, ?_, ?_⟩
  · intro e he
    unfold cpuTickEvent at he
    rw [Option.mem_def, Option.map_eq_some'] at he
    obtain ⟨⟨s, t⟩, hst, hmk⟩ := he
    have hsev := cpuTick_emits_crit_or_warn th c v s t hst
    subst hmk
    exact ⟨hsev, rfl, rfl⟩
  · intro e he
    unfold memTickEvent at he
    rw [Option.mem_def, Option.map_eq_some'] at he
    obtain ⟨⟨s, t⟩, hst, hmk⟩ := he
    have hsev := memTick_emits_crit_or_warn th v s t hst
    subst hmk
    exact ⟨hsev, rfl, rfl⟩
  · intro hsev
    simp [get_event_counts, insert_event, List.filter_append, hsev]

/-- Witness for C10: a concrete CRITICAL CPU tick, a concrete WARNING memory
tick, and a WARNING insert on the empty store. -/
theorem C10_witness :
    (∀ e ∈ cpuTickEvent default_thresholds 0 97 Json.null "cpu_1" "t0",
      (e.severity = "CRITICAL" ∨ e.severity = "WARNING") ∧
        e.status = "open" ∧ e.suggestion = none) ∧
    (∀ e ∈ memTickEvent default_thresholds 90 0 0 [] "mem_1" "t0",
      (e.severity = "CRITICAL" ∨ e.severity = "WARNING") ∧
        e.status = "open" ∧ e.suggestion = none) ∧
    (get_event_counts
        (insert_event [] "mem_1" 0 "WARNING" "memory_high" "system" "")).2.2 =
      (get_event_counts ([] : List StoredEvent)).2.2 :=
  ⟨(C10_sampler_events_never_info default_thresholds 0 97 Json.null []
      0 0 "cpu_1" "t0" [] "mem_1" 0 "WARNING" "memory_high" "system" "").1,
   (C10_sampler_events_never_info default_thresholds 0 90 Json.null []
      0 0 "mem_1" "t0" [] "mem_1" 0 "WARNING" "memory_high" "system" "").2.1,
   (C10_sampler_events_never_info default_thresholds 0 97 Json.null []
      0 0 "cpu_1" "t0" [] "mem_1" 0 "WARNING" "memory_high" "system" "").2.2
     (by decide)⟩

/-- C8: `status` reports `llm.available` solely from the availability cache —
the client's probe method is never consulted (the response is identical for
any two probe behaviours), the value is exactly the cached boolean defaulting
to `false` while the cache is uninitialized, and it is `false` whenever no
LLM client is configured, whatever the cache holds. -/
theorem C8_status_availability_from_cache (uptime : Nat)
    (store : List StoredEvent) (metrics : SystemMetrics) (client : LlmClient)
    (cache : Option Bool) (th : ThresholdsConfig) :
    llmAvailable (handle_status uptime store metrics (some client) cache th) =
      some (Json.bool (cache.getD false)) ∧
    (∀ p1 p2 : Bool,
      handle_status uptime store metrics
          (some { client with probe := p1 }) cache th =
        handle_status uptime store metrics
          (some { client with probe := p2 }) cache th) ∧
    (cache = none →
      llmAvailable
          (handle_status uptime store metrics (some client) cache th) =
        some (Json.bool false)) ∧
    (∀ cache2 : Option Bool,
      llmAvailable (handle_status uptime store metrics none cache2 th) =
        some (Json.bool false)) := by
  refine ⟨?_, fun p1 p2 => rfl, fun hc => ?_, fun cache2 => ?_⟩
  · simp [handle_status, llmAvailable, Json.getField]
  · subst hc
    simp [handle_status, llmAvailable, Json.getField, Option.getD]
  · simp [handle_status, llmAvailable, Json.getField]

/-- Witness for C8: empty store, zero metrics, a concrete client whose live
probe would answer `true` while the cache is still uninitialized — `status`
still reports `false`. -/
theorem C8_witness :
    llmAvailable
        (handle_status 0 []
          { cpu_usage := 0, memory_used_mb := 0, memory_total_mb := 0,
            memory_percent := 0 }
          (some { model := "m", base_url := "u", probe := true,
                  analyze := fun _ => Except.error "down" })
          none default_thresholds) =
      some (Json.bool false) :=
  (C8_status_availability_from_cache 0 []
    { cpu_usage := 0, memory_used_mb := 0, memory_total_mb := 0,
      memory_percent := 0 }
    { model := "m", base_url := "u", probe := true,
      analyze := fun _ => Except.error "down" }
    none default_thresholds).2.2.1 rfl

/-- A stored row used by the C6 counterexample. -/
def c6row : StoredEvent :=
  { event_id := "x", ts := 0, severity := "CRITICAL", type_ := "cpu_high",
    service_id := "system", snapshot := "", status := "open" }

/-- C6 (counterexample): with no LLM client configured, `analyze` does NOT
fail with one fixed error message independent of event existence — the store
lookup happens first, so an unknown id gets the not-found error while a known
id gets the fixed LLM error.  (Both do return `success = false`.) -/
theorem C6_counterexample :
    (handle_analyze [] "x" none (some true)).success = false ∧
    (handle_analyze [] "x" none (some true)).errorMsg =
      some (Json.str "Event x not found") ∧
    (handle_analyze [c6row] "x" none (some true)).errorMsg =
      some (Json.str llmNotAvailableMsg) ∧
    "Event x not found" ≠ llmNotAvailableMsg :=
  ⟨rfl, rfl, rfl, by decide⟩

/-- C6 (amended): with no LLM client configured, `analyze` always returns
`success = false` for every event id, and its response is independent of the
availability cache; but the error message depends on whether the event
exists: the fixed collaborator error is returned exactly when the event is in
the store, and a not-found error otherwise. -/
theorem C6_amended_analyze_without_llm (store : List StoredEvent)
    (id : String) (cache : Option Bool) :
    (handle_analyze store id none cache).success = false ∧
    (∀ cache2 : Option Bool,
      handle_analyze store id none cache2 = handle_analyze store id none cache) ∧
    ((get_event_by_id store id).isSome = true →
      (handle_analyze store id none cache).errorMsg =
        some (Json.str llmNotAvailableMsg)) ∧
    (get_event_by_id store id = none →
      (handle_analyze store id none cache).errorMsg =
        some (Json.str ("Event " ++ id ++ " not found"))) := by
  refine ⟨?_, fun cache2 => ?_, fun hsome => ?_, fun hnone => ?_⟩
  · unfold handle_analyze
    cases get_event_by_id store id <;> rfl
  · unfold handle_analyze
    cases get_event_by_id store id <;> rfl
  · unfold handle_analyze
    obtain ⟨ev, hev⟩ := Option.isSome_iff_exists.mp hsome
    rw [hev]
    rfl
  · unfold handle_analyze
    rw [hnone]
    rfl

/-- Witness for C6 (amended): a one-row store containing the requested id,
and the empty store missing it. -/
theorem C6_witness :
    (handle_analyze [c6row] "x" none none).success = false ∧
    (handle_analyze [c6row] "x" none none).errorMsg =
      some (Json.str llmNotAvailableMsg) ∧
    (handle_analyze [] "y" none none).errorMsg =
      some (Json.str ("Event " ++ "y" ++ " not found")) :=
  ⟨(C6_amended_analyze_without_llm [c6row] "x" none).1,
   (C6_amended_analyze_without_llm [c6row] "x" none).2.2.1 rfl,
   (C6_amended_analyze_without_llm [] "y" none).2.2.2 rfl⟩

/-- A CRITICAL pipeline event used by witnesses. -/
def wEvent : Event :=
  { event_id := "cpu_1", ts := "2024-01-01T00:00:00+00:00",
    severity := "CRITICAL", type_ := "cpu_high",
    entity := Json.obj [], evidence := Json.obj [],
    suggestion := none, status := "open" }

/-- C7: the analyzer loop is one iteration per received event — it ends
exactly when the channel's event list is exhausted, never earlier on a
failure; enrichment is attempted on an event iff its severity is CRITICAL and
an LLM client is configured; and a failed enrichment call leaves the event
unchanged (its suggestion stays absent) on its way to persistence. -/
theorem C7_analyzer_loop (llm : Option (Event → Except String Json))
    (tsParse : String → Option Int) (insertOk : StoredEvent → Bool)
    (evs : List Event) (ev : Event) (f : Event → Except String Json)
    (e : String) :
    analyzerRun llm tsParse insertOk evs =
      evs.map (analyzerIter llm tsParse insertOk) ∧
    (analyzerRun llm tsParse insertOk evs).length = evs.length ∧
    (analyzerStep llm ev).2 =
      (decide (ev.severity = "CRITICAL") && llm.isSome) ∧
    (f ev = Except.error e → (analyzerStep (some f) ev).1 = ev) := by
  have hmap : analyzerRun llm tsParse insertOk evs =
      evs.map (analyzerIter llm tsParse insertOk) := by
    induction evs with
    | nil => rfl
    | cons ev2 rest ih => simp [analyzerRun, ih]
  refine ⟨hmap, by rw [hmap]; exact List.length_map _ _, ?_, fun herr => ?_⟩
  · cases llm with
    | none => simp [analyzerStep]
    | some client =>
      by_cases hs : ev.severity = "CRITICAL"
      · unfold analyzerStep
        rw [if_pos ⟨hs, rfl⟩]
        cases hc : client ev <;> simp [hc, hs]
      · simp [analyzerStep, hs]
  · by_cases hs : ev.severity = "CRITICAL" <;>
      simp [analyzerStep, hs, herr]

/-- A failing LLM collaborator used by the C7 witness. -/
def wLlm : Event → Except String Json := fun _ => Except.error "down"

/-- Witness for C7: one CRITICAL event, an LLM call that fails, and an insert
that fails — the loop still yields exactly one iteration and the event is
unchanged by the failed enrichment. -/
theorem C7_witness :
    analyzerRun (some wLlm) (fun _ => some 0) (fun _ => false) [wEvent] =
      [wEvent].map
        (analyzerIter (some wLlm) (fun _ => some 0) (fun _ => false)) ∧
    (analyzerRun (some wLlm) (fun _ => some 0) (fun _ => false)
        [wEvent]).length = [wEvent].length ∧
    (analyzerStep (some wLlm) wEvent).2 =
      (decide (wEvent.severity = "CRITICAL") && (some wLlm).isSome) ∧
    (analyzerStep (some wLlm) wEvent).1 = wEvent := by
  have H := C7_analyzer_loop (some wLlm) (fun _ => some 0) (fun _ => false)
    [wEvent] wEvent wLlm "down"
  exact ⟨H.1, H.2.1, H.2.2.1, H.2.2.2 rfl⟩

/-- The event of the C1 counterexample, as handed to the analyzer. -/
def c1event : Event :=
  { event_id := "cpu_1", ts := "2024-01-01T00:00:00+00:00",
    severity := "CRITICAL", type_ := "cpu_high",
    entity := Json.obj [("cpu_usage", Json.num 97)],
    evidence := Json.obj [("threshold", Json.num 95)],
    suggestion := none, status := "open" }

/-- The row `store_event` writes for `c1event`: the snapshot is the byte
concatenation of the two serialized documents. -/
def c1row : StoredEvent :=
  { event_id := "cpu_1", ts := 1704067200, severity := "CRITICAL",
    type_ := "cpu_high", service_id := "system",
    snapshot := "\x7b\"cpu_usage\":97\x7d\x7b\"threshold\":95\x7d",
    status := "open" }

/-- C1 (counterexample): `c1event` is stored via the analyzer's path, and
`show` on its id succeeds — but the stored snapshot is two concatenated JSON
documents, so the single-document parse fails, the response's `snapshot`
falls back to the empty object, and the original `cpu_usage`/`threshold`
fields are gone: the round trip is not information-preserving. -/
theorem C1_counterexample :
    store_event (fun _ => some 1704067200) c1event = some c1row ∧
    (handle_show [c1row] "cpu_1").success = true ∧
    from_slice c1row.snapshot = none ∧
    (handle_show [c1row] "cpu_1").data.getField "snapshot" =
      some (Json.obj []) ∧
    (Json.obj []).getField "cpu_usage" = none ∧
    (Json.obj []).getField "threshold" = none := by
  refine ⟨rfl, rfl, rfl, rfl, rfl, rfl⟩

/-- C1 (amended): an event stored via the analyzer's path is retrievable via
`show` with `success = true` and identical `event_id`, `severity` and `type`;
but whenever the single-document parse of the stored snapshot fails — which
the concatenated format forces as soon as both entity and evidence are
present — the returned `snapshot` is the empty object rather than an
information-preserving view of the original entity/evidence fields. -/
theorem C1_amended_roundtrip (tsParse : String → Option Int) (ev : Event)
    (row : StoredEvent) (h : store_event tsParse ev = some row) :
    (handle_show [row] ev.event_id).success = true ∧
    (handle_show [row] ev.event_id).data.getField "event_id" =
      some (Json.str ev.event_id) ∧
    (handle_show [row] ev.event_id).data.getField "severity" =
      some (Json.str ev.severity) ∧
    (handle_show [row] ev.event_id).data.getField "type" =
      some (Json.str ev.type_) ∧
    (from_slice row.snapshot = none →
      (handle_show [row] ev.event_id).data.getField "snapshot" =
        some (Json.obj [])) := by
  unfold store_event at h
  rw [Option.map_eq_some'] at h
  obtain ⟨t, _, hrow⟩ := h
  subst hrow
  refine ⟨?_, ?_, ?_, ?_, fun hparse => ?_⟩
  · simp [handle_show, get_event_by_id, Json.getField]
  · simp [handle_show, get_event_by_id, Json.getField]
  · simp [handle_show, get_event_by_id, Json.getField]
  · simp [handle_show, get_event_by_id, Json.getField]
  · simp [handle_show, get_event_by_id, Json.getField, hparse]

/-- Witness for C1 (amended): the stored `c1event`, whose snapshot indeed
fails the single-document parse. -/
theorem C1_witness :
    (handle_show [c1row] c1event.event_id).success = true ∧
    (handle_show [c1row] c1event.event_id).data.getField "severity" =
      some (Json.str c1event.severity) ∧
    (handle_show [c1row] c1event.event_id).data.getField "snapshot" =
      some (Json.obj []) := by
  have H := C1_amended_roundtrip (fun _ => some 1704067200) c1event c1row rfl
  exact ⟨H.1, H.2.2.1, H.2.2.2.2 rfl⟩

end Sia
